import Mathlib

/-!
Verification of the Meshtastic session-engine specification against the
implementation in `custom_components/meshtastic/aiomeshtastic/interface.py`.

The Python code is shallowly embedded: pure helpers become Lean functions,
the async control loops become step functions over explicit event scripts,
and the mutable `MeshInterface` object becomes a state record with its
methods as state transformers.  Machine integers are modelled as `Nat`
(node numbers are unsigned 32-bit identifiers; no arithmetic in the
embedded fragment overflows), and fallible Python code (raising
`ValueError`, `IndexError`, ...) returns `Except`.
-/

namespace Mesh

/-! ## Data model shared by several components

`channel_pb2.Channel` carries an index, settings (with a textual name and a
numeric id) and a role; role `DISABLED` marks a channel that must not be
used.  The node database `MeshInterface._node_database` maps a node number
to an open record; we model the fields the embedded code reads. -/

structure ChannelSettings where
  name : String
  chanId : Nat := 0
  deriving DecidableEq

inductive ChannelRole where
  | disabled
  | primary
  | secondary
  deriving DecidableEq

structure Channel where
  index : Nat
  settings : ChannelSettings
  role : ChannelRole
  deriving DecidableEq

structure NodeUser where
  id : String
  shortName : String
  longName : String
  hwModel : String
  deriving DecidableEq

structure NodeEntry where
  num : Nat
  user : NodeUser
  hasPKC : Option Bool := none
  deriving DecidableEq

/-- The node database `_node_database : dict[int, dict]`, as a lookup
function: `db n = none` when node `n` has no entry. -/
abbrev NodeDb := Nat → Option NodeEntry

/-- `mesh_pb2.MyNodeInfo`: the field the embedded code reads. -/
structure MyNodeInfo where
  myNodeNum : Nat
  deriving DecidableEq

/-- Constant `MeshInterface.BROADCAST_NUM = 0xFFFFFFFF`. -/
def BROADCAST_NUM : Nat := 0xFFFFFFFF

/-- Constant `MeshInterface.BROADCAST_ADDR`. -/
def BROADCAST_ADDR : String := "^all"

/-- Constant `MeshInterface.PKC_CHANNEL_INDEX = 8`. -/
def PKC_CHANNEL_INDEX : Nat := 8

/-! ## String helpers (Python `str.lower`, slicing, `%08x` formatting)

The embedded strings are ASCII (channel names compared against "admin",
hex digits); `lowerChar` is ASCII lowercasing, which agrees with Python
`str.lower` on that fragment. -/

def lowerChar (c : Char) : Char :=
  if 65 ≤ c.toNat ∧ c.toNat ≤ 90 then Char.ofNat (c.toNat + 32) else c

def strLower (s : String) : String :=
  String.mk (s.data.map lowerChar)

/-- Python slice `s[-k:]`: the last `k` characters (the whole string when
it is shorter than `k`, matching truncated `Nat` subtraction). -/
def strTakeRight (k : Nat) (s : String) : String :=
  String.mk (s.data.drop (s.data.length - k))

/-- The sixteen lowercase hexadecimal digit characters, in value order. -/
def hexLowerDigits : List Char :=
  "0123456789abcdef".data

/-- Digit value `d` as the character Python `%x` prints for it (`d < 16`;
the out-of-range default is never reached from `hexRep`). -/
def hexDigitChar (d : Nat) : Char :=
  hexLowerDigits.getD d 'f'

/-- Value of a lowercase hexadecimal digit character. -/
def hexVal : Char → Nat
  | '0' => 0
  | '1' => 1
  | '2' => 2
  | '3' => 3
  | '4' => 4
  | '5' => 5
  | '6' => 6
  | '7' => 7
  | '8' => 8
  | '9' => 9
  | 'a' => 10
  | 'b' => 11
  | 'c' => 12
  | 'd' => 13
  | 'e' => 14
  | 'f' => 15
  | _ => 0

/-- Python `format(n, "x")`: big-endian lowercase hex digits of `n`, one
digit for `n < 16`. -/
def hexRep (n : Nat) : List Char :=
  if _h : n < 16 then [hexDigitChar n]
  else hexRep (n / 16) ++ [hexDigitChar (n % 16)]
decreasing_by omega

/-- Left zero-padding to `width`, as Python `%08x` pads. -/
def zeroPad (width : Nat) (s : List Char) : List Char :=
  List.replicate (width - s.length) '0' ++ s

/-- Python `f-string` formatting with format spec `08x`. -/
def formatHex8 (n : Nat) : String :=
  String.mk (zeroPad 8 (hexRep n))

/-- The number a big-endian list of lowercase hex digits denotes. -/
def parseHex (l : List Char) : Nat :=
  l.foldl (fun acc c => 16 * acc + hexVal c) 0

/-! ## Admin-channel selection (`MeshInterface._get_admin_channel_index`)

Lines 773-785.  `self._connected_node_info.my_node_num` is passed in as
`myNodeNum` (the method dereferences it unconditionally).  The guard
`c.settings and ...` in the loop is vacuous in protobuf Python (a
sub-message is always truthy), so only the name test remains. -/

def nodeHasPKC (db : NodeDb) (n : Nat) : Bool :=
  match db n with
  | none => false
  | some e => e.hasPKC.getD false

def isAdminChannel (c : Channel) : Bool :=
  strLower c.settings.name == "admin"

def getAdminChannelIndex (myNodeNum : Nat) (db : NodeDb)
    (channels : Option (List Channel)) (node : Nat) : Nat :=
  if node = myNodeNum then 0
  else if nodeHasPKC db myNodeNum && nodeHasPKC db node then PKC_CHANNEL_INDEX
  else
    match (channels.getD []).find? isAdminChannel with
    | some c => c.index
    | none => 0

/-- Case-insensitive string equality, as the spec words it ("a channel
literally named admin (case-insensitive)"). -/
def eqCaseInsensitive (a b : String) : Bool :=
  strLower a == strLower b

/-- Modelled from the spec's words in section 4.5, for comparison with
`getAdminChannelIndex`: "when addressing the locally-connected device,
always use channel 0; otherwise prefer the dedicated encrypted admin
channel index (8) only if both the local device and the target are known
to support it, else fall back to a channel literally named admin
(case-insensitive), else channel 0." -/
def adminChannelIndexSpec (myNodeNum : Nat) (db : NodeDb)
    (channels : Option (List Channel)) (node : Nat) : Nat :=
  if node = myNodeNum then 0
  else if nodeHasPKC db myNodeNum && nodeHasPKC db node then 8
  else
    match (channels.getD []).find? (fun c => eqCaseInsensitive c.settings.name "admin") with
    | some c => c.index
    | none => 0

/-! ## Request/response correlator (`MeshInterface._send_message_await_response`)

Lines 686-739.  One `asyncio.wait` races the error-carrier task and the
send task under a single timeout `actual_timeout`; the event scheduling is
abstracted into which tasks were in `done` when the wait returned
(`RaceResult`) and whether the `on_ack` callback had set `ack_received`.
Timeouts are seconds as `Rat` (`total_seconds()` values). -/

structure CorrelatorConfig where
  ackTimeout : Rat := 30
  responseTimeout : Rat := 60
  deriving DecidableEq

/-- Lines 697-699: the one effective deadline of the race. -/
def actualTimeout (cfg : CorrelatorConfig) (wantResponse : Bool)
    (timeout : Option Rat) : Rat :=
  match timeout with
  | some t => t
  | none => if wantResponse then cfg.responseTimeout else cfg.ackTimeout

/-- What `asyncio.wait` returned: which of the two racing tasks were done
(`onlyError` / `onlySend` / `bothDone`), or neither within the deadline
(`timedOut`).  `α` is the send task's result. -/
inductive RaceResult (α : Type) where
  | onlyError (err : Nat)
  | onlySend (r : α)
  | bothDone (err : Nat) (r : α)
  | timedOut
  deriving DecidableEq

/-- The call's outcome.  The `elapsed` field of the timeout errors is the
`actual_timeout` value interpolated into the raised message, which is also
how long `asyncio.wait` blocked before giving up. -/
inductive SendResult (α : Type) where
  | routingError (err : Nat)
  | ok (r : α)
  | ackTimeoutError (elapsed : Rat)
  | responseTimeoutError (elapsed : Rat)
  deriving DecidableEq

/-- Lines 697-739.  `done == {abort_on_error_task}` raises the routing
error; `done == {send_packet_task}` returns its result; anything else
(timeout, or both tasks done at once) raises the acknowledgement-timeout
error when `ack_received` was never set and the response-timeout error
otherwise. -/
def sendMessageAwaitResponse {α : Type} (cfg : CorrelatorConfig)
    (wantResponse : Bool) (timeout : Option Rat) (race : RaceResult α)
    (ackReceived : Bool) : SendResult α :=
  let t := actualTimeout cfg wantResponse timeout
  match race with
  | .onlyError e => .routingError e
  | .onlySend r => .ok r
  | .bothDone _ _ =>
      if ackReceived then .responseTimeoutError t else .ackTimeoutError t
  | .timedOut =>
      if ackReceived then .responseTimeoutError t else .ackTimeoutError t

/-! ## Config merge (`_process_connected_node_config`,
`_process_connected_node_module_config`)

Lines 403-447.  Each present sub-message is copied wholesale
(`CopyFrom`) into the cumulative `LocalConfig` / `LocalModuleConfig`
snapshot; an absent sub-field leaves the snapshot's field untouched.
Sub-message contents are opaque blobs, the type parameter `V`. -/

/-- `config_pb2.Config`: one inbound config message, with each sub-field
optionally present (`HasField`). -/
structure Config (V : Type) where
  device : Option V := none
  position : Option V := none
  power : Option V := none
  network : Option V := none
  display : Option V := none
  lora : Option V := none
  bluetooth : Option V := none
  security : Option V := none
  deriving DecidableEq

/-- `localonly_pb2.LocalConfig`: the cumulative snapshot (`none` = the
sub-field was never copied into it). -/
structure LocalConfig (V : Type) where
  device : Option V := none
  position : Option V := none
  power : Option V := none
  network : Option V := none
  display : Option V := none
  lora : Option V := none
  bluetooth : Option V := none
  security : Option V := none
  deriving DecidableEq

/-- `module_config_pb2.ModuleConfig`: one inbound module-config message. -/
structure ModuleConfig (V : Type) where
  mqtt : Option V := none
  serial : Option V := none
  external_notification : Option V := none
  store_forward : Option V := none
  range_test : Option V := none
  telemetry : Option V := none
  canned_message : Option V := none
  audio : Option V := none
  remote_hardware : Option V := none
  neighbor_info : Option V := none
  detection_sensor : Option V := none
  ambient_lighting : Option V := none
  paxcounter : Option V := none
  deriving DecidableEq

/-- `localonly_pb2.LocalModuleConfig`: the cumulative snapshot. -/
structure LocalModuleConfig (V : Type) where
  mqtt : Option V := none
  serial : Option V := none
  external_notification : Option V := none
  store_forward : Option V := none
  range_test : Option V := none
  telemetry : Option V := none
  canned_message : Option V := none
  audio : Option V := none
  remote_hardware : Option V := none
  neighbor_info : Option V := none
  detection_sensor : Option V := none
  ambient_lighting : Option V := none
  paxcounter : Option V := none
  deriving DecidableEq

/-- One `if config.HasField(f): snapshot.f.CopyFrom(config.f)`
statement: the incoming value replaces the stored one when present. -/
def mergeField {V : Type} (incoming current : Option V) : Option V :=
  match incoming with
  | some v => some v
  | none => current

/-- Lines 403-419: the eight independent `HasField`/`CopyFrom` statements
of `_process_connected_node_config`. -/
def processConnectedNodeConfig {V : Type} (lc : LocalConfig V)
    (c : Config V) : LocalConfig V :=
  { device := mergeField c.device lc.device
    position := mergeField c.position lc.position
    power := mergeField c.power lc.power
    network := mergeField c.network lc.network
    display := mergeField c.display lc.display
    lora := mergeField c.lora lc.lora
    bluetooth := mergeField c.bluetooth lc.bluetooth
    security := mergeField c.security lc.security }

/-- Lines 421-447: the thirteen independent `HasField`/`CopyFrom`
statements of `_process_connected_node_module_config`. -/
def processConnectedNodeModuleConfig {V : Type} (lc : LocalModuleConfig V)
    (c : ModuleConfig V) : LocalModuleConfig V :=
  { mqtt := mergeField c.mqtt lc.mqtt
    serial := mergeField c.serial lc.serial
    external_notification := mergeField c.external_notification lc.external_notification
    store_forward := mergeField c.store_forward lc.store_forward
    range_test := mergeField c.range_test lc.range_test
    telemetry := mergeField c.telemetry lc.telemetry
    canned_message := mergeField c.canned_message lc.canned_message
    audio := mergeField c.audio lc.audio
    remote_hardware := mergeField c.remote_hardware lc.remote_hardware
    neighbor_info := mergeField c.neighbor_info lc.neighbor_info
    detection_sensor := mergeField c.detection_sensor lc.detection_sensor
    ambient_lighting := mergeField c.ambient_lighting lc.ambient_lighting
    paxcounter := mergeField c.paxcounter lc.paxcounter }

/-- The last-seen value of one sub-field over a sequence of optional
updates, starting from `init`. -/
def lastSeen {V : Type} (updates : List (Option V)) (init : Option V) : Option V :=
  updates.foldl (fun acc u => mergeField u acc) init

/-! ## Stub node identity (`MeshNode.stub_node`, `_get_or_create_node`)

Lines 56-61 and 510-528. -/

/-- The `MeshNode` dataclass (lines 49-61). -/
structure MeshNode where
  id : Nat
  user_id : String
  short_name : String
  long_name : String
  deriving DecidableEq

/-- `MeshNode.stub_node` (lines 56-61): `user_id = f"!{node_id:08x}"`,
short name `user_id[-4:]`, long name `f"Meshtastic {user_id[-4:]}"`. -/
def MeshNode.stubNode (node_id : Nat) : MeshNode :=
  let user_id := "!" ++ formatHex8 node_id
  { id := node_id
    user_id := user_id
    short_name := strTakeRight 4 user_id
    long_name := "Meshtastic " ++ strTakeRight 4 user_id }

/-- Errors of the embedded Python fragment. -/
inductive PyError where
  | valueErrorBroadcastNum
  | valueErrorNotValidUserId
  | valueErrorInvalidHexString
  | valueErrorUnavailableChannelIndex
  | valueErrorChannelDisabled (name : String) (chanId : Nat)
  | valueErrorMissingArgument
  | indexError
  | typeErrorNoneChannels
  | attributeErrorNoneInfo
  deriving DecidableEq

/-- The minimal node-db entry `_get_or_create_node` builds (lines
517-526): `presumptive_id = f"!{node_num:08x}"`, names from its last four
characters, `hwModel` UNSET. -/
def stubNodeEntry (node_num : Nat) : NodeEntry :=
  let presumptive_id := "!" ++ formatHex8 node_num
  { num := node_num
    user :=
      { id := presumptive_id
        longName := "Meshtastic " ++ strTakeRight 4 presumptive_id
        shortName := strTakeRight 4 presumptive_id
        hwModel := "UNSET" } }

/-- `_get_or_create_node` (lines 510-528): rejects the broadcast number,
returns the existing entry, or inserts and returns the stub entry. -/
def getOrCreateNode (db : NodeDb) (node_num : Nat) :
    Except PyError (NodeEntry × NodeDb) :=
  if node_num = BROADCAST_NUM then .error .valueErrorBroadcastNum
  else
    match db node_num with
    | some n => .ok (n, db)
    | none =>
        let n := stubNodeEntry node_num
        .ok (n, fun m => if m = node_num then some n else db m)

/-! ## Sending a text message (`MeshInterface.send_text_message`)

Lines 787-832.  The channel lookup `MeshChannel` built by `find_channel`
carries `index=None` when it was found by name (line 279 passes the
method's `index` argument through), hence `index : Option Nat`. -/

structure MeshChannel where
  index : Option Nat
  name : String
  deriving DecidableEq

/-- The `destination` argument: a `MeshNode`, a `MeshChannel`, a user-id
string, a bare node number, or the `None` default (anything else also
falls to broadcast, line 812). -/
inductive Destination where
  | node (m : MeshNode)
  | channel (c : MeshChannel)
  | userId (s : String)
  | num (n : Nat)
  | broadcastDefault
  deriving DecidableEq

inductive Priority where
  | reliable
  | default
  deriving DecidableEq

/-- `portnums_pb2.PortNum.TEXT_MESSAGE_APP`. -/
def TEXT_MESSAGE_APP : Nat := 1

/-- The arguments `send_text_message` hands to
`ClientApiConnection.send_mesh_packet` (lines 824-832). -/
structure SentPacket where
  toNode : Nat
  channelIndex : Option Nat
  priority : Priority
  wantAck : Bool
  wantResponse : Bool
  portNum : Nat
  deriving DecidableEq

def mkTextPacket (toNode : Nat) (ci : Option Nat) (wantAck : Bool) : SentPacket :=
  { toNode := toNode
    channelIndex := ci
    priority := if wantAck then .reliable else .default
    wantAck := wantAck
    wantResponse := false
    portNum := TEXT_MESSAGE_APP }

/-- Value of one hex digit as Python `int(s, 16)` accepts it (both
cases). -/
def hexCharVal? (c : Char) : Option Nat :=
  let i := hexLowerDigits.indexOf (lowerChar c)
  if i < hexLowerDigits.length then some i else none

/-- Python `int(s, 16)` on the characters of `s`: `none` when `s` is empty
or has a non-hex character (`int` raises `ValueError` there).  Python also
tolerates surrounding whitespace, a sign and underscores; the user ids the
code parses have none of those. -/
def parseHexString (l : List Char) : Option Nat :=
  if l.isEmpty then none
  else
    l.foldl
      (fun acc c => acc.bind fun a => (hexCharVal? c).map fun v => 16 * a + v)
      (some 0)

/-- Lines 795-812: resolving `destination` to `(to_node, channel_index)`.
A `MeshNode` destination overwrites `channel_index` with `None`; a
`MeshChannel` destination overwrites it with its own index field. -/
def resolveDestination (dest : Destination) (channelIndex : Option Nat) :
    Except PyError (Nat × Option Nat) :=
  match dest with
  | .node m => .ok (m.id, none)
  | .channel mc => .ok (BROADCAST_NUM, mc.index)
  | .userId s =>
      if s = BROADCAST_ADDR then .ok (BROADCAST_NUM, channelIndex)
      else if ¬ s.startsWith "!" then .error .valueErrorNotValidUserId
      else
        match parseHexString (s.data.drop 1) with
        | some n => .ok (n, channelIndex)
        | none => .error .valueErrorInvalidHexString
  | .num n => .ok (n, channelIndex)
  | .broadcastDefault => .ok (BROADCAST_NUM, channelIndex)

/-- Lines 787-832.  After destination resolution, an explicit channel
index is validated against `self._connected_node_channels`: the guard
`len(channels) < channel_index` (line 815) raises `ValueError`, then
`channels[channel_index]` is read (an `IndexError` when the index equals
the length — the guard is off by one), and a `DISABLED` role raises
`ValueError`; only then is the packet handed to the connection. -/
def sendTextMessage (channels : Option (List Channel)) (dest : Destination)
    (wantAck : Bool) (channelIndex : Option Nat) : Except PyError SentPacket :=
  match resolveDestination dest channelIndex with
  | .error e => .error e
  | .ok (toNode, ci) =>
      match ci with
      | none => .ok (mkTextPacket toNode none wantAck)
      | some i =>
          match channels with
          | none => .error .typeErrorNoneChannels
          | some chs =>
              if chs.length < i then .error .valueErrorUnavailableChannelIndex
              else
                match chs[i]? with
                | none => .error .indexError
                | some ch =>
                    if ch.role = ChannelRole.disabled then
                      .error (.valueErrorChannelDisabled ch.settings.name ch.settings.chanId)
                    else .ok (mkTextPacket toNode (some i) wantAck)

/-! ## Channel lookup (`MeshInterface.find_channel`)

Lines 249-279. -/

/-- `find_channel(index, name)`.  With no argument it raises `ValueError`;
with `_connected_node_info` unset it returns `None`; an index query guards
with `len(channels) < index` (line 258) and then reads
`channels[index]` — `IndexError` when `index == len(channels)`; a
disabled channel or a name mismatch gives `None`.  A name query scans for
an enabled channel of that name and builds a `MeshChannel` whose `index`
field is the method's `index` argument — `None` in that branch. -/
def findChannel (info : Option MyNodeInfo) (channels : Option (List Channel))
    (index : Option Nat) (name : Option String) :
    Except PyError (Option MeshChannel) :=
  if index = none ∧ name = none then .error .valueErrorMissingArgument
  else
    match info with
    | none => .ok none
    | some _ =>
        match index with
        | some i =>
            match channels with
            | none => .error .typeErrorNoneChannels
            | some chs =>
                if chs.length < i then .ok none
                else
                  match chs[i]? with
                  | none => .error .indexError
                  | some ch =>
                      if ch.role = ChannelRole.disabled then .ok none
                      else
                        match name with
                        | some nm =>
                            if ch.settings.name ≠ nm then .ok none
                            else .ok (some { index := some i, name := ch.settings.name })
                        | none => .ok (some { index := some i, name := ch.settings.name })
        | none =>
            match channels with
            | none => .error .typeErrorNoneChannels
            | some chs =>
                match name with
                | none => .error .valueErrorMissingArgument
                | some nm =>
                    match chs.find? (fun c =>
                        c.settings.name == nm && !(c.role == ChannelRole.disabled)) with
                    | none => .ok none
                    | some ch => .ok (some { index := none, name := ch.settings.name })

/-! ## Reconnection loop (`MeshInterface._reconnect_while_running`)

Lines 568-604.  One iteration of the `while self.is_running` loop, as a
function of what the two awaited steps did.  `asyncio.wait_for` deadlines
are the literals 30 and 60 (lines 576, 586); `random.randint(5, 30)`
(line 602) is modelled by `randint` over a random source value. -/

def RECONNECT_TIMEOUT : Nat := 30

def REQUEST_CONFIG_TIMEOUT : Nat := 60

/-- `random.randint(a, b)`: uniform on the closed interval, here as the
draw of a random source value `r` reduced into the interval. -/
def randint (a b r : Nat) : Nat := a + r % (b - a + 1)

/-- What `asyncio.wait_for(self._connection.reconnect(force), timeout=30)`
did: timed out, returned `did_reconnect`, was cancelled, or raised some
other exception. -/
inductive ConnectStepResult where
  | timedOut
  | ok (didReconnect : Bool)
  | cancelled
  | failed
  deriving DecidableEq

/-- What `asyncio.wait_for(self._connection.request_config(...),
timeout=60)` did (consulted only when the reconnect step returned
`True`). -/
inductive ConfigStepResult where
  | timedOut
  | ok
  | cancelled
  | failed
  deriving DecidableEq

structure ReconnectIterEvent where
  conn : ConnectStepResult
  config : ConfigStepResult
  deriving DecidableEq

/-- How an iteration leaves the loop: `retry` re-runs the `while` body,
`exitReturn` is the `return` on success, `exitBreak` the `break` on
cancellation. -/
inductive IterControl where
  | retry
  | exitReturn
  | exitBreak
  deriving DecidableEq

structure ReconnectIterOut where
  control : IterControl
  force : Bool
  ready : Bool
  backoffSleep : Option Nat
  deriving DecidableEq

/-- One iteration of `_reconnect_while_running`'s loop body, from the
current `force_reconnect` flag and `_connected_node_ready` state:

* reconnect timeout → `continue` with no sleep (lines 578-580);
* reconnect `False` → `return` without a config request (lines 584, 597);
* reconnect `True`, config timeout → `force_reconnect = True`, `continue`
  with no sleep (lines 590-593);
* reconnect `True`, config success → ready set, `force_reconnect = False`,
  `return` (lines 587-589, 595-597);
* `CancelledError` at either step → `break` (lines 598-600);
* any other exception at either step → sleep `randint(5, 30)` seconds and
  retry (lines 601-604). -/
def reconnectIter (force ready : Bool) (ev : ReconnectIterEvent) (r : Nat) :
    ReconnectIterOut :=
  match ev.conn with
  | .timedOut => { control := .retry, force := force, ready := ready, backoffSleep := none }
  | .cancelled => { control := .exitBreak, force := force, ready := ready, backoffSleep := none }
  | .failed =>
      { control := .retry, force := force, ready := ready
        backoffSleep := some (randint 5 30 r) }
  | .ok false => { control := .exitReturn, force := force, ready := ready, backoffSleep := none }
  | .ok true =>
      match ev.config with
      | .timedOut => { control := .retry, force := true, ready := ready, backoffSleep := none }
      | .cancelled => { control := .exitBreak, force := force, ready := ready, backoffSleep := none }
      | .failed =>
          { control := .retry, force := force, ready := ready
            backoffSleep := some (randint 5 30 r) }
      | .ok => { control := .exitReturn, force := false, ready := true, backoffSleep := none }

/-- The whole loop over a script of iterations, each entry carrying the
`is_running` check's value and the iteration's events; yields the final
ready flag and the backoff sleeps performed, in order. -/
def reconnectLoop (force ready : Bool) :
    List (Bool × ReconnectIterEvent × Nat) → Bool × List Nat
  | [] => (ready, [])
  | (running, ev, r) :: rest =>
      if ¬ running then (ready, [])
      else
        let o := reconnectIter force ready ev r
        match o.control with
        | .exitReturn => (o.ready, o.backoffSleep.toList)
        | .exitBreak => (o.ready, o.backoffSleep.toList)
        | .retry =>
            let tail := reconnectLoop o.force o.ready rest
            (tail.1, o.backoffSleep.toList ++ tail.2)

/-! ## Self-restarting activity supervisor (`process_while_running`)

Lines 70-92.  The wrapper loops `while self.is_running`, running the
wrapped body; the script lists, per iteration, the `is_running` check's
value and what the body (and the 5-second cool-down sleep after a
failure) did. -/

def PROCESS_RESTART_COOLDOWN : Nat := 5

/-- What one run of the wrapped body did. -/
inductive BodyResult where
  | ok
  | cancelled
  | failedSleepCompleted
  | failedSleepCancelled
  deriving DecidableEq

/-- How the wrapper coroutine ended. -/
inductive LoopExit where
  | notRunning
  | cancelledRaised
  | exitedSilently
  | scheduleEnded
  deriving DecidableEq

/-- Lines 70-92 as a function of the iteration script; returns how the
wrapper ended and the completed cool-down sleeps, in order:

* `is_running` false → the `while` exits normally;
* body returns → loop again;
* body raises `CancelledError` → re-raised (line 79), loop exits;
* body raises anything else and `asyncio.sleep(5)` completes → loop
  again (lines 84-89);
* body raises anything else and the sleep is cancelled → `break`, loop
  exits without re-raising (lines 86-88). -/
def processWhileRunning : List (Bool × BodyResult) → LoopExit × List Nat
  | [] => (.scheduleEnded, [])
  | (running, ev) :: rest =>
      if ¬ running then (.notRunning, [])
      else
        match ev with
        | .ok => processWhileRunning rest
        | .cancelled => (.cancelledRaised, [])
        | .failedSleepCompleted =>
            let o := processWhileRunning rest
            (o.1, PROCESS_RESTART_COOLDOWN :: o.2)
        | .failedSleepCancelled => (.exitedSilently, [])

/-! ## Session state (`MeshInterface.__init__`, `stop`, the public getters)

The mutable fields of a `MeshInterface` instance, with Python's names.
`asyncio.Event` flags are `Bool` (`is_set`), task sets are lists of task
records, and stream listeners are records with an id.  Cancelling a task
removes it from `_background_tasks` through the registered done-callback
(line 621); `_cancel_processing_tasks` clears `_processing_tasks` itself
(line 338). -/

structure Listener where
  lid : Nat
  deriving DecidableEq

structure TaskItem where
  name : String
  deriving DecidableEq

structure InterfaceState where
  _is_running : Bool := false
  _connected_node_ready : Bool := false
  _connected_node_info : Option MyNodeInfo := none
  _connected_node_metadata : Option Nat := none
  _connected_node_channels : Option (List Channel) := none
  _connected_node_queue_status : Option Nat := none
  _connected_node_local_config : LocalConfig Nat := {}
  _connected_node_module_config : LocalModuleConfig Nat := {}
  _node_database : NodeDb := fun _ => none
  _packet_stream_listeners : List Listener := []
  _processing_tasks : List TaskItem := []
  _background_tasks : List TaskItem := []
  _connection_connected : Bool := false

/-- The state `__init__` leaves behind (lines 108-154): nothing running,
nothing ready, empty snapshots and registries. -/
def initialState : InterfaceState := {}

/-- The externally observable effects of one `stop()` call. -/
structure StopEffects where
  closedListeners : List Nat := []
  cancelledTasks : List String := []
  sentDisconnectAttempted : Bool := false
  disconnected : Bool := false
  deriving DecidableEq

/-- `_close_packet_streams` (lines 320-326): close every registered
stream listener, then clear the registry; returns the ids closed. -/
def closePacketStreams (s : InterfaceState) : InterfaceState × List Nat :=
  if s._packet_stream_listeners.isEmpty then (s, [])
  else
    ({ s with _packet_stream_listeners := [] },
     s._packet_stream_listeners.map Listener.lid)

/-- `_cancel_processing_tasks` (lines 328-338): when the processing set is
non-empty, cancel-and-await every processing and background task (the
background tasks drop out of their set through the done-callback), then
clear the processing set. -/
def cancelProcessingTasks (s : InterfaceState) : InterfaceState × List String :=
  if s._processing_tasks.isEmpty then (s, [])
  else
    ({ s with _processing_tasks := [], _background_tasks := [] },
     (s._processing_tasks ++ s._background_tasks).map TaskItem.name)

/-- `_cancel_background_tasks` (lines 340-346): cancel-and-await every
remaining background task. -/
def cancelBackgroundTasks (s : InterfaceState) : InterfaceState × List String :=
  if s._background_tasks.isEmpty then (s, [])
  else
    ({ s with _background_tasks := [] }, s._background_tasks.map TaskItem.name)

/-- `stop()` (lines 305-318): a no-op when not running; otherwise clear
the running and ready flags, close the stream listeners, cancel the
processing and background tasks, attempt the best-effort disconnect
notification (exceptions suppressed) and close the connection. -/
def InterfaceState.stop (s : InterfaceState) : InterfaceState × StopEffects :=
  if ¬ s._is_running then (s, {})
  else
    let s1 := { s with _is_running := false, _connected_node_ready := false }
    let p2 := closePacketStreams s1
    let p3 := cancelProcessingTasks p2.1
    let p4 := cancelBackgroundTasks p3.1
    ({ p4.1 with _connection_connected := false },
     { closedListeners := p2.2
       cancelledTasks := p3.2 ++ p4.2
       sentDisconnectAttempted := true
       disconnected := true })

/-- `connected_node()` (lines 182-190): `None` before ready; afterwards a
node-database lookup through `_connected_node_info.my_node_num` (an
`AttributeError` if the info snapshot were unset while ready). -/
def InterfaceState.connected_node (s : InterfaceState) :
    Except PyError (Option NodeEntry) :=
  if ¬ s._connected_node_ready then .ok none
  else
    match s._connected_node_info with
    | none => .error .attributeErrorNoneInfo
    | some info => .ok (s._node_database info.myNodeNum)

/-- `connected_node_metadata()` (lines 192-196). -/
def InterfaceState.connected_node_metadata (s : InterfaceState) : Option Nat :=
  if ¬ s._connected_node_ready then none else s._connected_node_metadata

/-- `connected_node_channels()` (lines 198-202). -/
def InterfaceState.connected_node_channels (s : InterfaceState) :
    Option (List Channel) :=
  if ¬ s._connected_node_ready then none else s._connected_node_channels

/-- `connected_node_local_config()` (lines 204-207). -/
def InterfaceState.connected_node_local_config (s : InterfaceState) :
    Option (LocalConfig Nat) :=
  if ¬ s._connected_node_ready then none else some s._connected_node_local_config

/-- `connected_node_module_config()` (lines 209-212). -/
def InterfaceState.connected_node_module_config (s : InterfaceState) :
    Option (LocalModuleConfig Nat) :=
  if ¬ s._connected_node_ready then none else some s._connected_node_module_config

/-! ## Concrete fixtures used by counterexamples and witnesses -/

def chPrimary : Channel :=
  { index := 0, settings := { name := "LongFast" }, role := .primary }

def chDisabled : Channel :=
  { index := 1, settings := { name := "Second", chanId := 7 }, role := .disabled }

def nodeFive : MeshNode :=
  { id := 5, user_id := "!00000005", short_name := "0005", long_name := "Meshtastic 0005" }

/-! ## Helper lemmas -/

theorem lastSeen_cons {V : Type} (x : Option V) (l : List (Option V)) (init : Option V) :
    lastSeen (x :: l) init = lastSeen l (mergeField x init) := rfl

theorem foldl_config_field {V : Type} (get : LocalConfig V → Option V)
    (getC : Config V → Option V)
    (h : ∀ lc c, get (processConnectedNodeConfig lc c) = mergeField (getC c) (get lc)) :
    ∀ (msgs : List (Config V)) (lc : LocalConfig V),
      get (msgs.foldl processConnectedNodeConfig lc) = lastSeen (msgs.map getC) (get lc) := by
  intro msgs
  induction msgs with
  | nil => intro lc; rfl
  | cons m t ih =>
      intro lc
      rw [List.foldl_cons, List.map_cons, lastSeen_cons, ih, h]

theorem foldl_module_field {V : Type} (get : LocalModuleConfig V → Option V)
    (getC : ModuleConfig V → Option V)
    (h : ∀ lc c, get (processConnectedNodeModuleConfig lc c) = mergeField (getC c) (get lc)) :
    ∀ (msgs : List (ModuleConfig V)) (lc : LocalModuleConfig V),
      get (msgs.foldl processConnectedNodeModuleConfig lc)
        = lastSeen (msgs.map getC) (get lc) := by
  intro msgs
  induction msgs with
  | nil => intro lc; rfl
  | cons m t ih =>
      intro lc
      rw [List.foldl_cons, List.map_cons, lastSeen_cons, ih, h]

/-! ## Claim C1 -/

/-- Claim C1, counterexample: with the default timeouts, a request that
wants a response and never sees any acknowledgement fails with the
acknowledgement-timeout error only after the response-timeout duration
(60), not after the ack-timeout duration (30) as the claim states. -/
theorem c1_ack_timeout_counterexample :
    sendMessageAwaitResponse (α := Unit) {} true none RaceResult.timedOut false
        = SendResult.ackTimeoutError 60
      ∧ ({} : CorrelatorConfig).ackTimeout = 30
      ∧ ({} : CorrelatorConfig).responseTimeout = 60
      ∧ (60 : Rat) ≠ 30 := by
  refine ⟨rfl, rfl, rfl, by norm_num⟩

/-- Claim C1 (amended): on timeout the correlator fails with the
acknowledgement-timeout error when no ack was observed and with the
response-timeout error when an ack was observed without a reply, in both
cases after the single effective deadline of the call — the configured
response-timeout when a response is requested, the ack-timeout
otherwise. -/
theorem c1_timeout_error_selection :
    ∀ (cfg : CorrelatorConfig) (wantResponse : Bool) (timeout : Option Rat),
      sendMessageAwaitResponse (α := Unit) cfg wantResponse timeout RaceResult.timedOut false
          = SendResult.ackTimeoutError (actualTimeout cfg wantResponse timeout)
        ∧ sendMessageAwaitResponse (α := Unit) cfg wantResponse timeout RaceResult.timedOut true
          = SendResult.responseTimeoutError (actualTimeout cfg wantResponse timeout)
        ∧ actualTimeout cfg false none = cfg.ackTimeout
        ∧ actualTimeout cfg true none = cfg.responseTimeout := by
  intro cfg w t
  exact ⟨rfl, rfl, rfl, rfl⟩

/-! ## Claim C4 -/

/-- Claim C4: in the reconnection loop, a timeout of the 30-second
reconnect attempt retries immediately with no sleep and an unchanged
force flag; a timeout of the 60-second config request sets the force
flag and retries with no sleep; any other failure at either step sleeps
`randint(5, 30)` seconds — always within [5, 30], and every value of
[5, 30] is drawn for some random-source value — before retrying. -/
theorem c4_reconnect_retry_policy :
    ∀ (force ready : Bool) (r : Nat) (cfgEv : ConfigStepResult)
      (rest : List (Bool × ReconnectIterEvent × Nat)),
      reconnectIter force ready ⟨.timedOut, cfgEv⟩ r
          = { control := .retry, force := force, ready := ready, backoffSleep := none }
        ∧ reconnectIter force ready ⟨.ok true, .timedOut⟩ r
          = { control := .retry, force := true, ready := ready, backoffSleep := none }
        ∧ reconnectIter force ready ⟨.failed, cfgEv⟩ r
          = { control := .retry, force := force, ready := ready
              backoffSleep := some (randint 5 30 r) }
        ∧ reconnectIter force ready ⟨.ok true, .failed⟩ r
          = { control := .retry, force := force, ready := ready
              backoffSleep := some (randint 5 30 r) }
        ∧ (5 ≤ randint 5 30 r ∧ randint 5 30 r ≤ 30)
        ∧ (∀ d, 5 ≤ d ∧ d ≤ 30 → randint 5 30 (d - 5) = d)
        ∧ reconnectLoop force ready ((true, ⟨.timedOut, cfgEv⟩, r) :: rest)
          = reconnectLoop force ready rest
        ∧ reconnectLoop force ready ((true, ⟨.ok true, .timedOut⟩, r) :: rest)
          = reconnectLoop true ready rest
        ∧ RECONNECT_TIMEOUT = 30
        ∧ REQUEST_CONFIG_TIMEOUT = 60 := by
  intro force ready r cfgEv rest
  refine ⟨rfl, rfl, rfl, rfl, ⟨?_, ?_⟩, ?_, rfl, rfl, rfl, rfl⟩
  · unfold randint; omega
  · unfold randint; omega
  · intro d hd; unfold randint; omega

/-! ## Claim C5 -/

/-- Claim C5: a supervised activity whose body fails with anything but a
cancellation sleeps the fixed 5-second cool-down and then re-runs as the
remaining schedule dictates; a cancellation during the body re-raises
out of the wrapper; a cancellation during the cool-down exits the
wrapper silently; and the body only runs while the session is
running. -/
theorem c5_supervisor_restart_policy :
    ∀ (rest : List (Bool × BodyResult)) (ev : BodyResult),
      processWhileRunning ((true, BodyResult.cancelled) :: rest)
          = (LoopExit.cancelledRaised, [])
        ∧ processWhileRunning ((true, BodyResult.failedSleepCancelled) :: rest)
          = (LoopExit.exitedSilently, [])
        ∧ processWhileRunning ((true, BodyResult.failedSleepCompleted) :: rest)
          = ((processWhileRunning rest).1,
             PROCESS_RESTART_COOLDOWN :: (processWhileRunning rest).2)
        ∧ processWhileRunning ((true, BodyResult.ok) :: rest) = processWhileRunning rest
        ∧ processWhileRunning ((false, ev) :: rest) = (LoopExit.notRunning, [])
        ∧ PROCESS_RESTART_COOLDOWN = 5 := by
  intro rest ev
  exact ⟨rfl, rfl, rfl, rfl, rfl, rfl⟩

/-! ## Claim C2 -/

/-- Claim C2: the implemented admin-channel selection agrees with the
spec's rule — channel 0 for the locally-connected device itself (whatever
channels exist), index 8 exactly when both the local device and the
target are known to support the encrypted admin channel, otherwise the
index of a channel named "admin" case-insensitively, otherwise 0 — and
in particular selecting for the connected device always yields 0. -/
theorem c2_admin_channel_selection :
    ∀ (myNodeNum : Nat) (db : NodeDb) (channels : Option (List Channel)) (node : Nat),
      getAdminChannelIndex myNodeNum db channels node
          = adminChannelIndexSpec myNodeNum db channels node
        ∧ getAdminChannelIndex myNodeNum db channels myNodeNum = 0 := by
  intro myNodeNum db channels node
  constructor
  · unfold getAdminChannelIndex adminChannelIndexSpec PKC_CHANNEL_INDEX
    have hpred : (fun c : Channel => eqCaseInsensitive c.settings.name "admin")
        = isAdminChannel := by
      funext c
      unfold eqCaseInsensitive isAdminChannel
      rw [show strLower "admin" = "admin" from rfl]
    rw [hpred]
  · unfold getAdminChannelIndex
    simp

/-! ## Claim C6 -/

/-- Claim C6: folding any sequence of inbound config and module-config
messages into the cumulative snapshots copies each present sub-field
wholesale and leaves absent sub-fields untouched, so every sub-field of
the result equals the last-seen value for that sub-field alone —
independent of how updates to other sub-fields are interleaved. -/
theorem c6_partial_merge_last_seen :
    ∀ (V : Type) (msgs : List (Config V)) (lc : LocalConfig V)
      (mmsgs : List (ModuleConfig V)) (mlc : LocalModuleConfig V),
      ((msgs.foldl processConnectedNodeConfig lc).device
          = lastSeen (msgs.map Config.device) lc.device
        ∧ (msgs.foldl processConnectedNodeConfig lc).position
          = lastSeen (msgs.map Config.position) lc.position
        ∧ (msgs.foldl processConnectedNodeConfig lc).power
          = lastSeen (msgs.map Config.power) lc.power
        ∧ (msgs.foldl processConnectedNodeConfig lc).network
          = lastSeen (msgs.map Config.network) lc.network
        ∧ (msgs.foldl processConnectedNodeConfig lc).display
          = lastSeen (msgs.map Config.display) lc.display
        ∧ (msgs.foldl processConnectedNodeConfig lc).lora
          = lastSeen (msgs.map Config.lora) lc.lora
        ∧ (msgs.foldl processConnectedNodeConfig lc).bluetooth
          = lastSeen (msgs.map Config.bluetooth) lc.bluetooth
        ∧ (msgs.foldl processConnectedNodeConfig lc).security
          = lastSeen (msgs.map Config.security) lc.security)
      ∧ ((mmsgs.foldl processConnectedNodeModuleConfig mlc).mqtt
          = lastSeen (mmsgs.map ModuleConfig.mqtt) mlc.mqtt
        ∧ (mmsgs.foldl processConnectedNodeModuleConfig mlc).serial
          = lastSeen (mmsgs.map ModuleConfig.serial) mlc.serial
        ∧ (mmsgs.foldl processConnectedNodeModuleConfig mlc).external_notification
          = lastSeen (mmsgs.map ModuleConfig.external_notification) mlc.external_notification
        ∧ (mmsgs.foldl processConnectedNodeModuleConfig mlc).store_forward
          = lastSeen (mmsgs.map ModuleConfig.store_forward) mlc.store_forward
        ∧ (mmsgs.foldl processConnectedNodeModuleConfig mlc).range_test
          = lastSeen (mmsgs.map ModuleConfig.range_test) mlc.range_test
        ∧ (mmsgs.foldl processConnectedNodeModuleConfig mlc).telemetry
          = lastSeen (mmsgs.map ModuleConfig.telemetry) mlc.telemetry
        ∧ (mmsgs.foldl processConnectedNodeModuleConfig mlc).canned_message
          = lastSeen (mmsgs.map ModuleConfig.canned_message) mlc.canned_message
        ∧ (mmsgs.foldl processConnectedNodeModuleConfig mlc).audio
          = lastSeen (mmsgs.map ModuleConfig.audio) mlc.audio
        ∧ (mmsgs.foldl processConnectedNodeModuleConfig mlc).remote_hardware
          = lastSeen (mmsgs.map ModuleConfig.remote_hardware) mlc.remote_hardware
        ∧ (mmsgs.foldl processConnectedNodeModuleConfig mlc).neighbor_info
          = lastSeen (mmsgs.map ModuleConfig.neighbor_info) mlc.neighbor_info
        ∧ (mmsgs.foldl processConnectedNodeModuleConfig mlc).detection_sensor
          = lastSeen (mmsgs.map ModuleConfig.detection_sensor) mlc.detection_sensor
        ∧ (mmsgs.foldl processConnectedNodeModuleConfig mlc).ambient_lighting
          = lastSeen (mmsgs.map ModuleConfig.ambient_lighting) mlc.ambient_lighting
        ∧ (mmsgs.foldl processConnectedNodeModuleConfig mlc).paxcounter
          = lastSeen (mmsgs.map ModuleConfig.paxcounter) mlc.paxcounter) := by
  intro V msgs lc mmsgs mlc
  refine ⟨⟨?_, ?_, ?_, ?_, ?_, ?_, ?_, ?_⟩,
    ?_, ?_, ?_, ?_, ?_, ?_, ?_, ?_, ?_, ?_, ?_, ?_, ?_⟩ <;>
    first
      | exact foldl_config_field _ _ (fun _ _ => rfl) msgs lc
      | exact foldl_module_field _ _ (fun _ _ => rfl) mmsgs mlc

/-! ## Claim C3 -/

/-- Claim C3, counterexample: with an explicit channel index naming a
disabled channel but a `MeshNode` destination, `send_text_message` does
not fail — the destination branch overwrites the channel index with
`None` (line 797) and the packet is handed to the connection. -/
theorem c3_disabled_channel_counterexample :
    ([chPrimary, chDisabled].getD 1 chPrimary).role = ChannelRole.disabled
      ∧ sendTextMessage (some [chPrimary, chDisabled])
          (Destination.node nodeFive) false (some 1)
        = Except.ok (mkTextPacket 5 none false) :=
  ⟨rfl, rfl⟩

/-- Claim C3 (amended): whenever the channel index that survives
destination resolution names a disabled channel, `send_text_message`
fails synchronously with the disabled-channel validation error and no
packet reaches the connection — but a `MeshNode` destination discards an
explicit channel index (and a `MeshChannel` destination replaces it), so
the validation only sees the resolved index.  In every case, a packet
that is handed to the connection with a channel index set names an
existing, non-disabled channel. -/
theorem c3_disabled_channel_validation :
    ∀ (chs : List Channel) (dest : Destination) (wantAck : Bool) (ci : Option Nat),
      (∀ (t i : Nat), resolveDestination dest ci = Except.ok (t, some i) →
          ∀ h : i < chs.length, (chs.get ⟨i, h⟩).role = ChannelRole.disabled →
            sendTextMessage (some chs) dest wantAck ci
              = Except.error (PyError.valueErrorChannelDisabled
                  (chs.get ⟨i, h⟩).settings.name (chs.get ⟨i, h⟩).settings.chanId))
        ∧ (∀ pkt : SentPacket, sendTextMessage (some chs) dest wantAck ci = Except.ok pkt →
            ∀ i : Nat, pkt.channelIndex = some i →
              ∃ h : i < chs.length, (chs.get ⟨i, h⟩).role ≠ ChannelRole.disabled) := by
  intro chs dest wantAck ci
  constructor
  · intro t i hres h hdis
    unfold sendTextMessage
    rw [hres]
    dsimp only
    have hlen : ¬ chs.length < i := by omega
    rw [if_neg hlen]
    rw [List.getElem?_eq_getElem h]
    have hget : chs[i] = chs.get ⟨i, h⟩ := rfl
    rw [hget]
    dsimp only
    rw [if_pos hdis]
  · intro pkt hok i hci
    unfold sendTextMessage at hok
    cases hres : resolveDestination dest ci with
    | error e => rw [hres] at hok; cases hok
    | ok pr =>
        obtain ⟨t, ci2⟩ := pr
        rw [hres] at hok
        dsimp only at hok
        cases ci2 with
        | none =>
            simp only [Except.ok.injEq] at hok
            rw [← hok] at hci
            cases hci
        | some j =>
            dsimp only at hok
            by_cases hlen : chs.length < j
            · rw [if_pos hlen] at hok; cases hok
            · rw [if_neg hlen] at hok
              cases hcj : chs[j]? with
              | none => rw [hcj] at hok; cases hok
              | some ch =>
                  rw [hcj] at hok
                  dsimp only at hok
                  by_cases hdis : ch.role = ChannelRole.disabled
                  · rw [if_pos hdis] at hok; cases hok
                  · rw [if_neg hdis] at hok
                    simp only [Except.ok.injEq] at hok
                    rw [← hok] at hci
                    simp only [mkTextPacket] at hci
                    cases hci
                    obtain ⟨hj, hchj⟩ := List.getElem?_eq_some_iff.1 hcj
                    exact ⟨hj, by rw [show chs.get ⟨i, hj⟩ = chs[i] from rfl, hchj]; exact hdis⟩

/-! ## Claim C10 -/

/-- Claim C10: `find_channel(index)` with `index` equal to the channel
list's length slips past the off-by-one bounds guard
`len(channels) < index` and raises `IndexError` from
`channels[index]`, instead of returning `None` as an out-of-range index
should. -/
theorem c10_find_channel_boundary_index_error :
    findChannel (some { myNodeNum := 1 }) (some [chPrimary]) (some 1) none
        = Except.error PyError.indexError
      ∧ findChannel (some { myNodeNum := 1 }) (some [chPrimary]) (some 2) none
        = Except.ok none :=
  ⟨rfl, rfl⟩

/-! ## Claim C8 -/

theorem stop_of_not_running (s : InterfaceState) (h : s._is_running = false) :
    s.stop = (s, {}) := by
  unfold InterfaceState.stop
  simp [h]

theorem stop_fst_is_running (s : InterfaceState) :
    (s.stop).1._is_running = false := by
  unfold InterfaceState.stop closePacketStreams cancelProcessingTasks cancelBackgroundTasks
  by_cases h : s._is_running = true
  · simp only [h]
    by_cases h1 : s._packet_stream_listeners.isEmpty <;>
      by_cases h2 : s._processing_tasks.isEmpty <;>
        by_cases h3 : s._background_tasks.isEmpty <;>
          simp [h1, h2, h3]
  · have h0 : s._is_running = false := by
      cases hb : s._is_running
      · rfl
      · exact absurd hb h
    simp [h0]

theorem closePacketStreams_spec (s : InterfaceState) :
    (closePacketStreams s).1
        = { s with _packet_stream_listeners := [] }
      ∧ ∀ l ∈ s._packet_stream_listeners, l.lid ∈ (closePacketStreams s).2 := by
  unfold closePacketStreams
  by_cases h : s._packet_stream_listeners.isEmpty
  · have he : s._packet_stream_listeners = [] := by
      simpa [List.isEmpty_iff] using h
    constructor
    · simp only [h, if_pos]
      cases s
      simp_all
    · simp [he]
  · constructor
    · simp [h]
    · intro l hl
      simp only [h]
      simp [List.mem_map]
      exact ⟨l, hl, rfl⟩

theorem cancelProcessingTasks_of_empty (s : InterfaceState)
    (h : s._processing_tasks = []) : cancelProcessingTasks s = (s, []) := by
  unfold cancelProcessingTasks
  simp [h]

theorem cancelProcessingTasks_of_nonempty (s : InterfaceState)
    (h : ¬ s._processing_tasks = []) :
    cancelProcessingTasks s
      = ({ s with _processing_tasks := [], _background_tasks := [] },
         (s._processing_tasks ++ s._background_tasks).map TaskItem.name) := by
  unfold cancelProcessingTasks
  simp [List.isEmpty_iff, h]

theorem cancelBackgroundTasks_of_empty (s : InterfaceState)
    (h : s._background_tasks = []) : cancelBackgroundTasks s = (s, []) := by
  unfold cancelBackgroundTasks
  simp [h]

theorem cancelBackgroundTasks_of_nonempty (s : InterfaceState)
    (h : ¬ s._background_tasks = []) :
    cancelBackgroundTasks s
      = ({ s with _background_tasks := [] },
         s._background_tasks.map TaskItem.name) := by
  unfold cancelBackgroundTasks
  simp [List.isEmpty_iff, h]

theorem cancelTasks_pipeline (s : InterfaceState) :
    (cancelBackgroundTasks (cancelProcessingTasks s).1).1
        = { s with _processing_tasks := [], _background_tasks := [] }
      ∧ ∀ t : TaskItem, t ∈ s._processing_tasks ∨ t ∈ s._background_tasks →
          t.name ∈ (cancelProcessingTasks s).2
            ++ (cancelBackgroundTasks (cancelProcessingTasks s).1).2 := by
  by_cases h2 : s._processing_tasks = []
  · rw [cancelProcessingTasks_of_empty s h2]
    by_cases h3 : s._background_tasks = []
    · rw [cancelBackgroundTasks_of_empty s h3]
      constructor
      · cases s
        simp_all
      · intro t ht
        rcases ht with ht | ht
        · rw [h2] at ht; cases ht
        · rw [h3] at ht; cases ht
    · rw [cancelBackgroundTasks_of_nonempty s h3]
      constructor
      · cases s
        simp_all
      · intro t ht
        rcases ht with ht | ht
        · rw [h2] at ht; cases ht
        · exact List.mem_append_right _ (List.mem_map_of_mem _ ht)
  · rw [cancelProcessingTasks_of_nonempty s h2]
    rw [cancelBackgroundTasks_of_empty _ rfl]
    constructor
    · rfl
    · intro t ht
      apply List.mem_append_left
      apply List.mem_map_of_mem
      rcases ht with ht | ht
      · exact List.mem_append_left _ ht
      · exact List.mem_append_right _ ht

/-- Claim C8: `stop()` on a session that is not running is a complete
no-op — same state, no effects; `stop()` on a running session clears the
running and ready flags, closes every registered stream listener, and
cancels every processing and background task so that none remains
tracked afterward; and a second `stop()` changes nothing more. -/
theorem c8_stop_idempotent :
    ∀ s : InterfaceState,
      (s._is_running = false → s.stop = (s, {}))
        ∧ (s._is_running = true →
            (s.stop).1._is_running = false
              ∧ (s.stop).1._connected_node_ready = false
              ∧ (s.stop).1._packet_stream_listeners = []
              ∧ (s.stop).1._processing_tasks = []
              ∧ (s.stop).1._background_tasks = []
              ∧ (∀ l ∈ s._packet_stream_listeners,
                  l.lid ∈ (s.stop).2.closedListeners)
              ∧ (∀ t : TaskItem, t ∈ s._processing_tasks ∨ t ∈ s._background_tasks →
                  t.name ∈ (s.stop).2.cancelledTasks))
        ∧ ((s.stop).1.stop).1 = (s.stop).1 := by
  intro s
  refine ⟨fun h => stop_of_not_running s h, fun h => ?_, ?_⟩
  · have hstop : s.stop
        = (let s1 : InterfaceState :=
             { s with _is_running := false, _connected_node_ready := false }
           let p2 := closePacketStreams s1
           let p3 := cancelProcessingTasks p2.1
           let p4 := cancelBackgroundTasks p3.1
           ({ p4.1 with _connection_connected := false },
            { closedListeners := p2.2
              cancelledTasks := p3.2 ++ p4.2
              sentDisconnectAttempted := true
              disconnected := true })) := by
      unfold InterfaceState.stop
      simp [h]
    set s1 : InterfaceState :=
      { s with _is_running := false, _connected_node_ready := false } with hs1
    obtain ⟨hc1, hc2⟩ := closePacketStreams_spec s1
    obtain ⟨hp1, hp2⟩ := cancelTasks_pipeline (closePacketStreams s1).1
    rw [hc1] at hp1 hp2
    refine ⟨?_, ?_, ?_, ?_, ?_, ?_, ?_⟩ <;>
      simp only [hstop, hs1, hp1, hc1] <;> try rfl
    · intro l hl
      exact hc2 l hl
    · intro t ht
      exact hp2 t ht
  · rw [stop_of_not_running _ (stop_fst_is_running s)]

/-! ## Claim C9 -/

/-- Claim C9: with the ready flag clear, every public query of the local
device state — connected node, metadata, channel list, local config,
module config — returns `None`; the snapshot is observable only once
ready is set. -/
theorem c9_ready_gates_queries :
    ∀ s : InterfaceState, s._connected_node_ready = false →
      s.connected_node = Except.ok none
        ∧ s.connected_node_metadata = none
        ∧ s.connected_node_channels = none
        ∧ s.connected_node_local_config = none
        ∧ s.connected_node_module_config = none := by
  intro s h
  unfold InterfaceState.connected_node InterfaceState.connected_node_metadata
    InterfaceState.connected_node_channels InterfaceState.connected_node_local_config
    InterfaceState.connected_node_module_config
  simp [h]

/-- Claim C9, witness: the freshly constructed session state is not ready
and all five queries return `None`. -/
theorem c9_ready_gates_queries_witness :
    initialState.connected_node = Except.ok none
      ∧ initialState.connected_node_metadata = none
      ∧ initialState.connected_node_channels = none
      ∧ initialState.connected_node_local_config = none
      ∧ initialState.connected_node_module_config = none :=
  c9_ready_gates_queries initialState rfl

/-! ## Claim C7 -/

theorem hexDigitChar_mem (d : Nat) : hexDigitChar d ∈ hexLowerDigits := by
  unfold hexDigitChar
  by_cases h : d < hexLowerDigits.length
  · rw [List.getD_eq_getElem _ _ h]
    exact List.getElem_mem h
  · rw [List.getD_eq_default _ _ (by omega)]
    decide

theorem hexVal_hexDigitChar {d : Nat} (h : d < 16) :
    hexVal (hexDigitChar d) = d := by
  interval_cases d <;> rfl

theorem parseHex_go (l : List Char) (a : Nat) :
    l.foldl (fun acc c => 16 * acc + hexVal c) a
      = a * 16 ^ l.length + l.foldl (fun acc c => 16 * acc + hexVal c) 0 := by
  induction l generalizing a with
  | nil => simp
  | cons c t ih =>
      simp only [List.foldl_cons, List.length_cons]
      rw [ih (16 * a + hexVal c), ih (16 * 0 + hexVal c)]
      ring

theorem parseHex_append (l1 l2 : List Char) :
    parseHex (l1 ++ l2) = parseHex l1 * 16 ^ l2.length + parseHex l2 := by
  unfold parseHex
  rw [List.foldl_append, parseHex_go]

theorem parseHex_replicate_zero (k : Nat) :
    parseHex (List.replicate k '0') = 0 := by
  induction k with
  | zero => rfl
  | succ n ih =>
      rw [List.replicate_succ]
      exact ih

theorem parseHex_hexRep (n : Nat) : parseHex (hexRep n) = n := by
  induction n using Nat.strong_induction_on with
  | _ n ih =>
      rw [hexRep.eq_def]
      by_cases h : n < 16
      · rw [dif_pos h]
        unfold parseHex
        simp [hexVal_hexDigitChar h]
      · rw [dif_neg h]
        rw [parseHex_append]
        rw [ih _ (Nat.div_lt_self (by omega) (by omega))]
        have h2 : parseHex [hexDigitChar (n % 16)] = n % 16 := by
          unfold parseHex
          simp [hexVal_hexDigitChar (Nat.mod_lt n (show 0 < 16 by omega))]
        rw [h2]
        simp only [List.length_cons, List.length_nil, pow_one]
        omega

theorem hexRep_length_le : ∀ (k n : Nat), n < 16 ^ (k + 1) → (hexRep n).length ≤ k + 1 := by
  intro k
  induction k with
  | zero =>
      intro n h
      rw [hexRep.eq_def, dif_pos (by simpa using h)]
      simp
  | succ m ih =>
      intro n h
      by_cases h16 : n < 16
      · rw [hexRep.eq_def, dif_pos h16]
        simp
      · rw [hexRep.eq_def, dif_neg h16]
        rw [List.length_append]
        have hdiv : n / 16 < 16 ^ (m + 1) := by
          rw [Nat.div_lt_iff_lt_mul (by omega : 0 < 16)]
          calc n < 16 ^ (m + 1 + 1) := h
            _ = 16 ^ (m + 1) * 16 := by ring
        have := ih (n / 16) hdiv
        simp only [List.length_cons, List.length_nil]
        omega

theorem mem_hexRep (n : Nat) : ∀ c ∈ hexRep n, c ∈ hexLowerDigits := by
  induction n using Nat.strong_induction_on with
  | _ n ih =>
      intro c hc
      by_cases h : n < 16
      · rw [hexRep.eq_def, dif_pos h] at hc
        simp only [List.mem_singleton] at hc
        subst hc
        exact hexDigitChar_mem n
      · rw [hexRep.eq_def, dif_neg h] at hc
        rcases List.mem_append.1 hc with h1 | h1
        · exact ih _ (Nat.div_lt_self (by omega) (by omega)) c h1
        · simp only [List.mem_singleton] at h1
          subst h1
          exact hexDigitChar_mem _

theorem zeroPad_length {l : List Char} (h : l.length ≤ 8) :
    (zeroPad 8 l).length = 8 := by
  unfold zeroPad
  rw [List.length_append, List.length_replicate]
  omega

theorem parseHex_zeroPad (l : List Char) : parseHex (zeroPad 8 l) = parseHex l := by
  unfold zeroPad
  rw [parseHex_append, parseHex_replicate_zero]
  simp

theorem mem_zeroPad_hexRep {n : Nat} : ∀ c ∈ zeroPad 8 (hexRep n), c ∈ hexLowerDigits := by
  intro c hc
  unfold zeroPad at hc
  rcases List.mem_append.1 hc with h | h
  · rw [List.eq_of_mem_replicate h]
    decide
  · exact mem_hexRep n c h

/-- Claim C7: a stub node record is deterministic — its user id is `!`
followed by the node number in eight lowercase hexadecimal digits (their
value reads back as the node number), its short name is the last four
characters of that id, its long name is "Meshtastic " plus those same
four characters, and `_get_or_create_node`'s minimal entry carries the
same identity. -/
theorem c7_stub_node_identity (n : Nat) (hn : n < 2 ^ 32) :
    (MeshNode.stubNode n).user_id.data = '!' :: zeroPad 8 (hexRep n)
      ∧ (zeroPad 8 (hexRep n)).length = 8
      ∧ (∀ c ∈ zeroPad 8 (hexRep n), c ∈ hexLowerDigits)
      ∧ parseHex (zeroPad 8 (hexRep n)) = n
      ∧ (MeshNode.stubNode n).short_name
        = strTakeRight 4 (MeshNode.stubNode n).user_id
      ∧ (MeshNode.stubNode n).long_name
        = "Meshtastic " ++ (MeshNode.stubNode n).short_name
      ∧ stubNodeEntry n
        = { num := n
            user :=
              { id := (MeshNode.stubNode n).user_id
                shortName := (MeshNode.stubNode n).short_name
                longName := (MeshNode.stubNode n).long_name
                hwModel := "UNSET" } } := by
  have h8 : (hexRep n).length ≤ 8 := by
    apply hexRep_length_le 7 n
    calc n < 2 ^ 32 := hn
      _ = 16 ^ (7 + 1) := by norm_num
  refine ⟨?_, zeroPad_length h8, mem_zeroPad_hexRep, ?_, rfl, rfl, rfl⟩
  · show ("!" ++ formatHex8 n).data = '!' :: zeroPad 8 (hexRep n)
    rw [String.data_append]
    rfl
  · rw [parseHex_zeroPad]
    exact parseHex_hexRep n

/-- Claim C7, witness: the stub identity at node number 3735928559
(hexadecimal deadbeef). -/
theorem c7_stub_node_identity_witness :
    (MeshNode.stubNode 3735928559).user_id.data = '!' :: zeroPad 8 (hexRep 3735928559)
      ∧ (zeroPad 8 (hexRep 3735928559)).length = 8
      ∧ (∀ c ∈ zeroPad 8 (hexRep 3735928559), c ∈ hexLowerDigits)
      ∧ parseHex (zeroPad 8 (hexRep 3735928559)) = 3735928559
      ∧ (MeshNode.stubNode 3735928559).short_name
        = strTakeRight 4 (MeshNode.stubNode 3735928559).user_id
      ∧ (MeshNode.stubNode 3735928559).long_name
        = "Meshtastic " ++ (MeshNode.stubNode 3735928559).short_name
      ∧ stubNodeEntry 3735928559
        = { num := 3735928559
            user :=
              { id := (MeshNode.stubNode 3735928559).user_id
                shortName := (MeshNode.stubNode 3735928559).short_name
                longName := (MeshNode.stubNode 3735928559).long_name
                hwModel := "UNSET" } } :=
  c7_stub_node_identity 3735928559 (by norm_num)

end Mesh
